import Mathlib

/-!
Verification of the chez-vous single-page client: the request-lifecycle
state machine of the `Home` component (`handleSubmit`, the reset button,
the `address`/`loading`/`result`/`error` slots) together with the failure
normalization of `analyzeAddress` in `services/api.js`, and the defensive
rendering rules of the final `Home` variant (conditional sections for
location, word of mouth, ratings, landmark travel times, nearby stations).

JavaScript values flowing through the component are modelled by `JsonVal`;
property access, truthiness, template-literal coercion and React text
rendering are given their JavaScript semantics below.  Numbers are
modelled as integers (every number exercised by the data contract —
arrondissements, scores, walk times — is integral).
-/

/-- A JavaScript/JSON value as handled by the component.  A missing object
property is represented by `Option.none` at the access site (JavaScript's
`undefined`), not by a constructor. -/
inductive JsonVal where
  | jnull
  | jbool (b : Bool)
  | jnum (n : Int)
  | jstr (s : String)
  | jarr (elems : List JsonVal)
  | jobj (fields : List (String × JsonVal))

/-- JavaScript truthiness: `null`, `false`, `0` and `""` are falsy;
every array and object (including empty ones) is truthy. -/
def truthy : JsonVal → Bool
  | .jnull => false
  | .jbool b => b
  | .jnum n => n != 0
  | .jstr s => s ≠ ""
  | .jarr _ => true
  | .jobj _ => true

/-- Truthiness of a possibly-`undefined` value (`undefined` is falsy). -/
def truthyOpt : Option JsonVal → Bool
  | none => false
  | some v => truthy v

/-- JavaScript property access `v[k]` as used by the component: an object
yields its field (first binding wins; JS objects have unique keys), every
other value yields `undefined` (`none`). -/
def getField : JsonVal → String → Option JsonVal
  | .jobj fields, k => fields.lookup k
  | _, _ => none

mutual
/-- JavaScript `String(v)` coercion, as performed by template literals
such as the asset-path interpolations in the renderer. -/
def jsToString : JsonVal → String
  | .jnull => "null"
  | .jbool b => if b then "true" else "false"
  | .jnum n => toString n
  | .jstr s => s
  | .jarr xs => String.intercalate "," (jsToStringList xs)
  | .jobj _ => "[object Object]"

/-- Elementwise coercion used by `Array.prototype.toString`/`join`:
`null` elements become the empty string. -/
def jsToStringList : List JsonVal → List String
  | [] => []
  | x :: xs =>
      (match x with
       | .jnull => ""
       | v => jsToString v) :: jsToStringList xs
end

/-- Template-literal interpolation of a possibly-`undefined` value:
`undefined` prints as the string "undefined". -/
def templateOpt : Option JsonVal → String
  | none => "undefined"
  | some v => jsToString v

mutual
/-- The visible text React produces for a child expression: strings as-is,
numbers in decimal, `null`/booleans render nothing, arrays render each
element in order.  (Plain objects are not valid React children; no claim
exercises that case.) -/
def reactText : JsonVal → String
  | .jstr s => s
  | .jnum n => toString n
  | .jarr xs => String.join (reactTextList xs)
  | _ => ""

def reactTextList : List JsonVal → List String
  | [] => []
  | x :: xs => reactText x :: reactTextList xs
end

/-- Visible text of a possibly-`undefined` child (`undefined` renders
nothing). -/
def reactTextOpt : Option JsonVal → String
  | none => ""
  | some v => reactText v

/-- JavaScript `Object.entries`: fields of an object in insertion order,
index/element pairs for arrays and strings, `[]` for primitives. -/
def jsEntries : JsonVal → List (String × JsonVal)
  | .jobj fields => fields
  | .jarr xs => xs.enum.map (fun p => (toString p.1, p.2))
  | .jstr s => s.toList.enum.map (fun p => (toString p.1, JsonVal.jstr (String.singleton p.2)))
  | _ => []

/-- JavaScript `.length`: defined for arrays and strings, `undefined`
otherwise. -/
def jsLength : JsonVal → Option Int
  | .jarr xs => some xs.length
  | .jstr s => some s.length
  | _ => none

/-- The test `v.length > 0` as JavaScript evaluates it (an `undefined`
length compares as false). -/
def lengthPos (v : JsonVal) : Bool :=
  match jsLength v with
  | some n => n > 0
  | none => false

/-- Character-list worker for `key.replace('_', ' ')`: JavaScript
`String.replace` with a string pattern replaces only the first
occurrence. -/
def replaceFirstUnderscoreAux : List Char → List Char
  | [] => []
  | c :: cs => if c = '_' then ' ' :: cs else c :: replaceFirstUnderscoreAux cs

/-- `key.replace('_', ' ')` on a string. -/
def replaceFirstUnderscore (s : String) : String :=
  ⟨replaceFirstUnderscoreAux s.data⟩

/-- The whitespace class stripped by `String.prototype.trim` (restricted
to the ASCII whitespace actually occurring in address input). -/
def isJsWhitespace (c : Char) : Bool :=
  c = ' ' ∨ c = '\t' ∨ c = '\n' ∨ c = '\r'

/-- JavaScript `address.trim()`: strip leading and trailing whitespace. -/
def jsTrim (s : String) : String :=
  ⟨((s.data.dropWhile isJsWhitespace).reverse.dropWhile isJsWhitespace).reverse⟩

/-! ## Request controller

The `Home` component holds four mutable slots (`useState`): the
`address` input value, the `loading` flag, and the `result`/`error`
values (both initialised to `null`).  `inFlight` counts outstanding
`analyzeAddress` calls; it is not a variable of the program but the
observable the at-most-one-in-flight claim speaks about: `handleSubmit`
increments it exactly when it issues the network call, and the call's
settlement decrements it. -/

structure SessionState where
  address : String
  loading : Bool
  result : JsonVal
  error : JsonVal
  inFlight : Nat

/-- Initial component state: `useState('')`, `useState(false)`,
`useState(null)`, `useState(null)`. -/
def initState : SessionState :=
  { address := "", loading := false, result := .jnull, error := .jnull, inFlight := 0 }

/-- The synchronous prefix of `handleSubmit`: return unchanged when the
trimmed address is empty, otherwise `setLoading(true)`,
`setError(null)`, `setResult(null)` and issue the `analyzeAddress` call
(one more request in flight). -/
def submitEffect (s : SessionState) : SessionState :=
  if jsTrim s.address = "" then s
  else { s with loading := true, error := .jnull, result := .jnull,
                inFlight := s.inFlight + 1 }

/-- `services/api.js`, `analyzeAddress` catch clause: rethrow
`error.response?.data || { error: 'Failed to analyze address' }`.  The
argument is the response body of a non-2xx reply, or `none` when no
response exists (network failure or timeout). -/
def apiThrownValue (responseData : Option JsonVal) : JsonVal :=
  match responseData with
  | some d => if truthy d then d
              else .jobj [("error", .jstr "Failed to analyze address")]
  | none => .jobj [("error", .jstr "Failed to analyze address")]

/-- `handleSubmit` catch clause:
`setError(err.error || 'Failed to analyze address')`. -/
def controllerCaughtMessage (thrown : JsonVal) : JsonVal :=
  match getField thrown "error" with
  | some v => if truthy v then v else .jstr "Failed to analyze address"
  | none => .jstr "Failed to analyze address"

/-- Settlement of a failed `analyzeAddress` call: the catch clause sets
the error message, the finally clause runs `setLoading(false)`. -/
def failEffect (s : SessionState) (responseData : Option JsonVal) : SessionState :=
  { s with loading := false,
           error := controllerCaughtMessage (apiThrownValue responseData),
           inFlight := s.inFlight - 1 }

/-- Settlement of a successful call: `setResult(data)` then the finally
clause `setLoading(false)`. -/
def succeedEffect (s : SessionState) (data : JsonVal) : SessionState :=
  { s with loading := false, result := data, inFlight := s.inFlight - 1 }

/-- The reset button's onClick: `setResult(null); setAddress('');
setError(null)`. -/
def resetEffect (s : SessionState) : SessionState :=
  { s with result := .jnull, address := "", error := .jnull }

/-- Externally triggered events plus settlement of the in-flight call. -/
inductive Ev where
  | setAddress (a : String)
  | submit
  | callSucceed (data : JsonVal)
  | callFail (responseData : Option JsonVal)
  | reset

/-- One step of the session.  Guards record which controls the component
actually renders in a given state (final `Home` variant): the search
form (input and submit button) exists only while no result is displayed
and no request is loading, and the reset button exists only inside the
result view.  A call can settle only while one is outstanding. -/
inductive Step : SessionState → Ev → SessionState → Prop
  | setAddress (s : SessionState) (a : String)
      (hform : truthy s.result = false) (hload : s.loading = false) :
      Step s (Ev.setAddress a) { s with address := a }
  | submit (s : SessionState)
      (hform : truthy s.result = false) (hload : s.loading = false) :
      Step s Ev.submit (submitEffect s)
  | callSucceed (s : SessionState) (data : JsonVal)
      (hfl : 1 ≤ s.inFlight) :
      Step s (Ev.callSucceed data) (succeedEffect s data)
  | callFail (s : SessionState) (responseData : Option JsonVal)
      (hfl : 1 ≤ s.inFlight) :
      Step s (Ev.callFail responseData) (failEffect s responseData)
  | reset (s : SessionState)
      (hbtn : truthy s.result = true) :
      Step s Ev.reset (resetEffect s)

/-- States reachable from the freshly mounted component. -/
inductive Reachable : SessionState → Prop
  | init : Reachable initState
  | step {s : SessionState} {e : Ev} {s' : SessionState} :
      Reachable s → Step s e s' → Reachable s'

/-- Inductive invariant of the session: while loading exactly one call
is outstanding and both result and error have been cleared; while not
loading no call is outstanding; a non-null result entails a null
error. -/
def SessionInv (s : SessionState) : Prop :=
  (s.loading = true → s.inFlight = 1 ∧ s.result = .jnull ∧ s.error = .jnull)
  ∧ (s.loading = false → s.inFlight = 0)
  ∧ (s.result ≠ .jnull → s.error = .jnull)

theorem inv_init : SessionInv initState := by
  refine ⟨?_, ?_, ?_⟩ <;> simp [initState, SessionInv]

theorem truthy_ne_jnull {v : JsonVal} (h : truthy v = true) : v ≠ .jnull := by
  intro hv
  rw [hv] at h
  simp [truthy] at h

theorem inv_step {s : SessionState} {e : Ev} {s' : SessionState}
    (hinv : SessionInv s) (hstep : Step s e s') : SessionInv s' := by
  obtain ⟨h1, h2, h3⟩ := hinv
  cases hstep with
  | setAddress a hform hload =>
      exact ⟨fun h => h1 h, fun h => h2 h, h3⟩
  | submit hform hload =>
      unfold submitEffect
      by_cases hb : jsTrim s.address = ""
      · simp only [hb, if_pos rfl]
        exact ⟨h1, h2, h3⟩
      · simp only [if_neg hb]
        refine ⟨fun _ => ⟨?_, rfl, rfl⟩, fun h => by simp at h, fun h => rfl⟩
        rw [h2 hload]
  | callSucceed data hfl =>
      have hl : s.loading = true := by
        cases hld : s.loading
        · rw [h2 hld] at hfl; omega
        · rfl
      obtain ⟨hf, hr, he⟩ := h1 hl
      refine ⟨fun h => by simp [succeedEffect] at h, fun _ => ?_, fun _ => ?_⟩
      · simp [succeedEffect, hf]
      · simp [succeedEffect, he]
  | callFail responseData hfl =>
      have hl : s.loading = true := by
        cases hld : s.loading
        · rw [h2 hld] at hfl; omega
        · rfl
      obtain ⟨hf, hr, he⟩ := h1 hl
      refine ⟨fun h => by simp [failEffect] at h, fun _ => ?_, fun h => ?_⟩
      · simp [failEffect, hf]
      · exact absurd hr h
  | reset hbtn =>
      have hrn : s.result ≠ .jnull := truthy_ne_jnull hbtn
      have hl : s.loading = false := by
        cases hld : s.loading
        · rfl
        · exact absurd (h1 hld).2.1 hrn
      refine ⟨fun h => ?_, fun _ => ?_, fun _ => rfl⟩
      · have h' : s.loading = true := h
        rw [hl] at h'
        exact absurd h' (by simp)
      · exact h2 hl

theorem reachable_inv {s : SessionState} (h : Reachable s) : SessionInv s := by
  induction h with
  | init => exact inv_init
  | step _ hstep ih => exact inv_step ih hstep

/-! ## Response renderer (final `Home` variant)

Each definition transcribes one conditional block of the JSX returned
for a displayed `result`.  A "rendered" block is one whose guard
expression is truthy; entry lists collect, in order, the data each
`.map` call emits. -/

/-- `result.analysis` -/
def analysisOf (r : JsonVal) : Option JsonVal := getField r "analysis"

/-- `result.analysis.what_locals_say` (undefined when `analysis` is not
an object). -/
def wlsOf (r : JsonVal) : Option JsonVal :=
  (analysisOf r).bind (fun a => getField a "what_locals_say")

/-- Guard of the Word of Mouth block:
`result.analysis && result.analysis.what_locals_say`. -/
def womRendered (r : JsonVal) : Bool :=
  truthyOpt (analysisOf r) && truthyOpt (wlsOf r)

/-- The paragraphs of the Word of Mouth block:
`Array.isArray(v) ? v.map(p => <p>{p}</p>) : <p>{v}</p>`. -/
def womParagraphs (r : JsonVal) : List JsonVal :=
  if womRendered r then
    match wlsOf r with
    | some (.jarr xs) => xs
    | some v => [v]
    | none => []
  else []

/-- `result.geo_data` -/
def geoOf (r : JsonVal) : Option JsonVal := getField r "geo_data"

/-- `result.geo_data?.arrondissement` -/
def arrOf (r : JsonVal) : Option JsonVal :=
  (geoOf r).bind (fun g => getField g "arrondissement")

/-- The Arrondissement & Address block is guarded only by the enclosing
`result && (...)`: it renders whenever a result is displayed, with no
check on `geo_data`. -/
def locationBlockRendered (r : JsonVal) : Bool := truthy r

/-- The arrondissement image:
`result.geo_data?.arrondissement && <img src={...} />` with
src `/arr_numbers/$\x7bresult.geo_data.arrondissement\x7d.png`. -/
def arrAsset (r : JsonVal) : Option String :=
  match arrOf r with
  | some v => if truthy v then some ("/arr_numbers/" ++ jsToString v ++ ".png") else none
  | none => none

/-- Visible text of `result.geo_data?.full_address` (rendered
unconditionally inside the block). -/
def fullAddressText (r : JsonVal) : String :=
  reactTextOpt ((geoOf r).bind (fun g => getField g "full_address"))

/-- `result.analysis.ratings` -/
def ratingsOf (r : JsonVal) : Option JsonVal :=
  (analysisOf r).bind (fun a => getField a "ratings")

/-- Asset path of one rating entry: `/$\x7bvalue.score\x7d_5.png`. -/
def ratingAssetSrc (score : Option JsonVal) : String :=
  "/" ++ templateOpt score ++ "_5.png"

/-- The five rating assets that exist. -/
def ratingAssets : List String :=
  ["/1_5.png", "/2_5.png", "/3_5.png", "/4_5.png", "/5_5.png"]

/-- The rating entries the grid displays, in mapping order:
`result.analysis && (... result.analysis.ratings &&
Object.entries(result.analysis.ratings).map(([key, value]) => ...))`.
Each entry shows the key with its first underscore replaced by a space
and the asset image chosen by `value.score`. -/
def renderedRatings (r : JsonVal) : List (String × String) :=
  if truthyOpt (analysisOf r) then
    match ratingsOf r with
    | some v =>
        if truthy v then
          (jsEntries v).map (fun kv =>
            (replaceFirstUnderscore kv.1, ratingAssetSrc (getField kv.2 "score")))
        else []
    | none => []
  else []

/-- `result.transport` -/
def transportOf (r : JsonVal) : Option JsonVal := getField r "transport"

/-- `result.transport.landmark_travel_times` -/
def landmarksOf (r : JsonVal) : Option JsonVal :=
  (transportOf r).bind (fun t => getField t "landmark_travel_times")

/-- Guard of the Travel Times block: `result.transport && ...` outside,
`result.transport.landmark_travel_times && (...)` inside.  Note an empty
array is truthy, so the block (heading included) renders for an empty
sequence. -/
def landmarksBlockRendered (r : JsonVal) : Bool :=
  truthyOpt (transportOf r) && truthyOpt (landmarksOf r)

/-- The `iconMap` object literal inside the landmark `.map` callback. -/
def iconMap (n : String) : Option String :=
  if n = "Sacré-Cœur" then some "sacre"
  else if n = "Notre-Dame" then some "notre"
  else if n = "Eiffel Tower" then some "eiffel"
  else if n = "Arc de Triomphe" then some "arc"
  else if n = "Louvre" then some "louvre"
  else if n = "Champs-Élysées" then some "champs"
  else none

/-- What one landmark entry puts in the DOM: the name text, the icon
image's src, and the time text. -/
structure LandmarkRender where
  name : String
  iconSrc : String
  time : String
deriving Repr, DecidableEq

/-- One iteration of the landmark `.map` callback: the `<img>` is
emitted unconditionally with src
`/landmarks/$\x7biconName\x7d.png`, where `iconName` is
`iconMap[landmark.landmark]` (an `undefined` lookup interpolates as the
string "undefined"). -/
def renderLandmark (l : JsonVal) : LandmarkRender :=
  let nm := getField l "landmark"
  { name := reactTextOpt nm,
    iconSrc := "/landmarks/" ++
      (match iconMap (templateOpt nm) with
       | some ic => ic
       | none => "undefined") ++ ".png",
    time := reactTextOpt (getField l "time") }

/-- All landmark entries the block displays, in sequence order.  (The
code calls `.map` on the raw value; only array-shaped sequences are
meaningful, matching the data contract.) -/
def landmarkEntries (r : JsonVal) : List LandmarkRender :=
  if landmarksBlockRendered r then
    match landmarksOf r with
    | some (.jarr xs) => xs.map renderLandmark
    | _ => []
  else []

/-- `result.transport.nearby_stations` -/
def stationsOf (r : JsonVal) : Option JsonVal :=
  (transportOf r).bind (fun t => getField t "nearby_stations")

/-- Guard of the Nearby Stations block: `result.transport && ...`
outside, `result.transport.nearby_stations &&
result.transport.nearby_stations.length > 0 && (...)` inside. -/
def stationsBlockRendered (r : JsonVal) : Bool :=
  truthyOpt (transportOf r) &&
    (match stationsOf r with
     | some v => truthy v && lengthPos v
     | none => false)

/-- `Array.prototype.join(', ')` as used for `station.lines`. -/
def jsJoin (v : JsonVal) : String :=
  match v with
  | .jarr xs => String.intercalate ", " (jsToStringList xs)
  | _ => ""

/-- What one station entry puts in the DOM. -/
structure StationRender where
  name : String
  transportType : String
  linesLabel : Option String
  walkTime : String
deriving Repr, DecidableEq

/-- One iteration of the station `.map` callback; the lines label is
guarded by `station.lines && station.lines.length > 0` and joins the
lines with a comma and space. -/
def renderStation (st : JsonVal) : StationRender :=
  { name := reactTextOpt (getField st "name"),
    transportType := reactTextOpt (getField st "transport_type"),
    linesLabel :=
      match getField st "lines" with
      | some v => if truthy v && lengthPos v then some (jsJoin v) else none
      | none => none,
    walkTime := reactTextOpt (getField st "walk_time_minutes") }

/-- The station entries the block displays:
`result.transport.nearby_stations.slice(0, 5).map(...)`. -/
def shownStations (r : JsonVal) : List StationRender :=
  if stationsBlockRendered r then
    match stationsOf r with
    | some (.jarr xs) => (xs.take 5).map renderStation
    | _ => []
  else []


/-! ## Example reachable states shared by several claims -/

/-- The session after typing an address and submitting: one call in
flight. -/
def pendingExample : SessionState :=
  { address := "10 Rue de Rivoli", loading := true, result := .jnull,
    error := .jnull, inFlight := 1 }

theorem reach_pendingExample : Reachable pendingExample := by
  have h1 : Reachable { initState with address := "10 Rue de Rivoli" } :=
    Reachable.step Reachable.init (Step.setAddress initState "10 Rue de Rivoli" rfl rfl)
  have h2 := Step.submit { initState with address := "10 Rue de Rivoli" } rfl rfl
  exact Reachable.step h1 h2

/-- The session after the in-flight call fails without a structured
error body (network failure or timeout). -/
def failedExample : SessionState :=
  { address := "10 Rue de Rivoli", loading := false, result := .jnull,
    error := .jstr "Failed to analyze address", inFlight := 0 }

theorem reach_failedExample : Reachable failedExample := by
  have h := Step.callFail pendingExample none (by decide)
  exact Reachable.step reach_pendingExample h

/-- The session after the in-flight call succeeds with some payload. -/
def succeededExample : SessionState :=
  { address := "10 Rue de Rivoli", loading := false, result := .jobj [],
    error := .jnull, inFlight := 0 }

theorem reach_succeededExample : Reachable succeededExample := by
  have h := Step.callSucceed pendingExample (.jobj []) (by decide)
  exact Reachable.step reach_pendingExample h

/-! ## Claims about the request controller -/

/-- Claim C1: while a request is Pending (`loading` is true) the search
form is not rendered, so `submit` cannot be invoked and no step
increases the number of outstanding calls; in every reachable state at
most one analysis request is in flight. -/
theorem at_most_one_in_flight :
    ∀ s : SessionState, Reachable s →
      s.inFlight ≤ 1 ∧
      (s.loading = true →
        ∀ (e : Ev) (s' : SessionState), Step s e s' → s'.inFlight ≤ s.inFlight) := by
  intro s hs
  obtain ⟨h1, h2, h3⟩ := reachable_inv hs
  constructor
  · cases hld : s.loading
    · rw [h2 hld]; omega
    · rw [(h1 hld).1]
  · intro hl e s' hstep
    cases hstep with
    | setAddress a hform hload => exact Nat.le.refl
    | submit hform hload => simp [hload] at hl
    | callSucceed data hfl => exact Nat.sub_le _ _
    | callFail responseData hfl => exact Nat.sub_le _ _
    | reset hbtn =>
        have hr := (h1 hl).2.1
        rw [hr] at hbtn
        exact absurd hbtn (by simp [truthy])

/-- Witness for C1 at the concrete reachable Pending state. -/
theorem at_most_one_in_flight_witness :
    pendingExample.inFlight ≤ 1 ∧
    (pendingExample.loading = true →
      ∀ (e : Ev) (s' : SessionState), Step pendingExample e s' →
        s'.inFlight ≤ pendingExample.inFlight) :=
  at_most_one_in_flight pendingExample reach_pendingExample

/-- The failure message as the specification words it: the error body's
`error` field when such a truthy field is present, otherwise the exact
fallback message.  Stated from the spec's sentence, to be compared with
the composition of the two source-level handlers. -/
def specServiceErrorMessage (responseData : Option JsonVal) : JsonVal :=
  match responseData with
  | some d =>
      match getField d "error" with
      | some v => if truthy v then v else .jstr "Failed to analyze address"
      | none => .jstr "Failed to analyze address"
  | none => .jstr "Failed to analyze address"

theorem caught_message_eq_spec (responseData : Option JsonVal) :
    controllerCaughtMessage (apiThrownValue responseData) =
      specServiceErrorMessage responseData := by
  cases responseData with
  | none => rfl
  | some d =>
      cases d with
      | jnull => rfl
      | jbool b => cases b <;> rfl
      | jnum n =>
          by_cases h : n = 0
          · subst h; rfl
          · simp [apiThrownValue, truthy, h, controllerCaughtMessage,
                  specServiceErrorMessage, getField]
      | jstr s =>
          by_cases h : s = ""
          · subst h; rfl
          · simp [apiThrownValue, truthy, h, controllerCaughtMessage,
                  specServiceErrorMessage, getField]
      | jarr xs => rfl
      | jobj fields => rfl

theorem spec_message_truthy (responseData : Option JsonVal) :
    truthy (specServiceErrorMessage responseData) = true := by
  cases responseData with
  | none => rfl
  | some d =>
      cases hf : getField d "error" with
      | none =>
          show truthy (match getField d "error" with
                       | some v => if truthy v = true then v
                                   else JsonVal.jstr "Failed to analyze address"
                       | none => JsonVal.jstr "Failed to analyze address") = true
          rw [hf]
          rfl
      | some v =>
          show truthy (match getField d "error" with
                       | some w => if truthy w = true then w
                                   else JsonVal.jstr "Failed to analyze address"
                       | none => JsonVal.jstr "Failed to analyze address") = true
          rw [hf]
          show truthy (if truthy v = true then v
                       else JsonVal.jstr "Failed to analyze address") = true
          by_cases hv : truthy v = true
          · rw [if_pos hv]; exact hv
          · rw [if_neg hv]; rfl

/-- Claim C2: settling a failed analysis call (non-2xx body, or no
response at all for a network failure or timeout) always produces a
state that carries exactly the message the spec prescribes — the error
body's truthy `error` field, else the fixed fallback — with loading
cleared; the message is always truthy, so the failure is displayed and
never escapes the catch clause. -/
theorem failure_normalized :
    ∀ (s : SessionState) (responseData : Option JsonVal),
      (failEffect s responseData).error = specServiceErrorMessage responseData ∧
      (failEffect s responseData).loading = false ∧
      truthy (failEffect s responseData).error = true := by
  intro s responseData
  refine ⟨caught_message_eq_spec responseData, rfl, ?_⟩
  have h : (failEffect s responseData).error = specServiceErrorMessage responseData :=
    caught_message_eq_spec responseData
  rw [h]
  exact spec_message_truthy responseData

/-- Claim C5: a blank or whitespace-only address makes `handleSubmit`
return before any setter runs — the state (including the in-flight
count, so no outbound call, and the error slot, so no message) is
unchanged. -/
theorem blank_submit_noop :
    ∀ s : SessionState, jsTrim s.address = "" → submitEffect s = s := by
  intro s h
  unfold submitEffect
  rw [if_pos h]

/-- Witness for C5 on a whitespace-only address. -/
theorem blank_submit_noop_witness :
    submitEffect { initState with address := "   " } = { initState with address := "   " } :=
  blank_submit_noop { initState with address := "   " } (by decide)

/-- Claim C10: in every reachable state the stored result and the stored
error are never simultaneously non-null (in particular never both
truthy, so the error banner and the report are never shown together),
and a valid submission clears both slots before the call starts. -/
theorem result_error_exclusive :
    ∀ s : SessionState, Reachable s →
      ¬(s.result ≠ .jnull ∧ s.error ≠ .jnull) ∧
      ¬(truthy s.result = true ∧ truthy s.error = true) ∧
      (jsTrim s.address ≠ "" →
        (submitEffect s).result = .jnull ∧ (submitEffect s).error = .jnull) := by
  intro s hs
  obtain ⟨h1, h2, h3⟩ := reachable_inv hs
  refine ⟨?_, ?_, ?_⟩
  · rintro ⟨hr, he⟩
    exact he (h3 hr)
  · rintro ⟨hr, he⟩
    rw [h3 (truthy_ne_jnull hr)] at he
    exact absurd he (by simp [truthy])
  · intro h
    unfold submitEffect
    rw [if_neg h]
    exact ⟨rfl, rfl⟩

/-- Witness for C10 at the concrete reachable Failed state. -/
theorem result_error_exclusive_witness :
    ¬(failedExample.result ≠ .jnull ∧ failedExample.error ≠ .jnull) ∧
    ¬(truthy failedExample.result = true ∧ truthy failedExample.error = true) ∧
    (jsTrim failedExample.address ≠ "" →
      (submitEffect failedExample).result = .jnull ∧
      (submitEffect failedExample).error = .jnull) :=
  result_error_exclusive failedExample reach_failedExample

/-! ## Claims about the response renderer -/

/-- A result whose ratings mapping carries an out-of-range score. -/
def c3Example : JsonVal :=
  .jobj [("analysis", .jobj [("ratings",
    .jobj [("noise_level", .jobj [("score", .jnum 0)])])])]

/-- Counterexample to C3: a score of 0 is not flagged — the entry is
rendered exactly like a valid one, with the asset path built from the
raw score, and that path is none of the five existing rating assets.
The renderer's output carries no violation marker of any kind. -/
theorem ratings_out_of_range_counterexample :
    renderedRatings c3Example = [("noise level", "/0_5.png")] ∧
    "/0_5.png" ∉ ratingAssets := by
  constructor
  · rfl
  · decide

/-- Claim C3 (amended): rating entries are rendered iff the ratings
value is truthy-present with at least one entry; scores 1–5 select one
of the five fixed assets, with 1 and 5 both valid; a score outside 1–5
is silently rendered with the raw-score asset path (which exists for no
asset), neither clamped nor flagged. -/
theorem ratings_rendering :
    (∀ r : JsonVal, renderedRatings r ≠ [] ↔
      (truthyOpt (analysisOf r) = true ∧
        ∃ v, ratingsOf r = some v ∧ truthy v = true ∧ jsEntries v ≠ [])) ∧
    (∀ k : Int, 1 ≤ k → k ≤ 5 → ratingAssetSrc (some (.jnum k)) ∈ ratingAssets) ∧
    (ratingAssetSrc (some (.jnum 1)) = "/1_5.png" ∧
      ratingAssetSrc (some (.jnum 5)) = "/5_5.png") ∧
    (ratingAssetSrc (some (.jnum 0)) = "/0_5.png" ∧
      ratingAssetSrc (some (.jnum 6)) = "/6_5.png" ∧
      "/0_5.png" ∉ ratingAssets ∧ "/6_5.png" ∉ ratingAssets) := by
  refine ⟨?_, ?_, ⟨rfl, rfl⟩, ⟨rfl, rfl, by decide, by decide⟩⟩
  · intro r
    unfold renderedRatings
    by_cases hA : truthyOpt (analysisOf r) = true
    · rw [if_pos hA]
      cases hR : ratingsOf r with
      | none => simp [hA]
      | some v =>
          by_cases hv : truthy v = true
          · simp [hA, hv, List.map_eq_nil_iff]
          · simp [hA, hv]
    · rw [if_neg hA]
      simp [hA]
  · intro k h1 h5
    interval_cases k <;> decide

/-- Witness for C3 (amended) at score 3. -/
theorem ratings_rendering_witness :
    ratingAssetSrc (some (.jnum 3)) ∈ ratingAssets :=
  ratings_rendering.2.1 3 (by decide) (by decide)

/-- A result carrying only an arrondissement number. -/
def mkGeoResult (v : JsonVal) : JsonVal :=
  .jobj [("geo_data", .jobj [("arrondissement", v)])]

/-- Counterexample to C4: arrondissement 21 is outside 1–20, yet the
decorative asset img is rendered with the path keyed by 21; and the
Location block renders for a result with no `geo_data` at all (its
guard is only the displayed result). -/
theorem arrondissement_counterexample :
    arrAsset (mkGeoResult (.jnum 21)) = some "/arr_numbers/21.png" ∧
    locationBlockRendered (JsonVal.jobj []) = true ∧
    geoOf (JsonVal.jobj []) = none :=
  ⟨rfl, rfl, rfl⟩

/-- Claim C4 (amended): the Location block renders whenever a result is
displayed, regardless of `geo_data`; the arrondissement asset is shown
iff the arrondissement value is truthy — any value in 1–20 selects the
asset keyed by that integer, but so does any other nonzero number —
and no asset is shown only when the value is missing or falsy
(e.g. 0). -/
theorem location_rendering :
    (∀ r : JsonVal, locationBlockRendered r = truthy r) ∧
    (∀ (r : JsonVal) (v : JsonVal), arrOf r = some v → truthy v = true →
      arrAsset r = some ("/arr_numbers/" ++ jsToString v ++ ".png")) ∧
    (∀ r : JsonVal, arrOf r = none → arrAsset r = none) ∧
    (∀ r : JsonVal, arrOf r = some (.jnum 0) → arrAsset r = none) ∧
    (∀ n : Int, 1 ≤ n → n ≤ 20 →
      arrAsset (mkGeoResult (.jnum n)) =
        some ("/arr_numbers/" ++ toString n ++ ".png")) := by
  refine ⟨fun r => rfl, ?_, ?_, ?_, ?_⟩
  · intro r v h hv
    simp [arrAsset, h, hv]
  · intro r h
    simp [arrAsset, h]
  · intro r h
    simp [arrAsset, h, truthy]
  · intro n h1 h20
    have hn : n ≠ 0 := by omega
    unfold arrAsset arrOf mkGeoResult geoOf
    show (match getField (JsonVal.jobj [("geo_data", JsonVal.jobj [("arrondissement", JsonVal.jnum n)])]) "geo_data" |>.bind
            (fun g => getField g "arrondissement") with
          | some v => if truthy v = true
                      then some ("/arr_numbers/" ++ jsToString v ++ ".png") else none
          | none => none) =
      some ("/arr_numbers/" ++ toString n ++ ".png")
    show (if truthy (JsonVal.jnum n) = true
          then some ("/arr_numbers/" ++ jsToString (JsonVal.jnum n) ++ ".png") else none) =
      some ("/arr_numbers/" ++ toString n ++ ".png")
    rw [if_pos (by simp [truthy, hn])]
    rfl

/-- Witness for C4 (amended) at arrondissement 7. -/
theorem location_rendering_witness :
    arrAsset (mkGeoResult (.jnum 7)) =
      some ("/arr_numbers/" ++ toString (7 : Int) ++ ".png") :=
  location_rendering.2.2.2.2 7 (by decide) (by decide)

/-- A result whose analysis carries only `what_locals_say`. -/
def mkWomResult (v : JsonVal) : JsonVal :=
  .jobj [("analysis", .jobj [("what_locals_say", v)])]

/-- Claim C6: with `analysis` and a truthy `what_locals_say` the Word of
Mouth block renders; an array value yields one paragraph per element in
order, any other value yields a single paragraph, and a one-element
array and the equal single string produce the same visible text. -/
theorem wom_dual_shape :
    (∀ (r : JsonVal) (xs : List JsonVal),
      truthyOpt (analysisOf r) = true → wlsOf r = some (.jarr xs) →
      womRendered r = true ∧ womParagraphs r = xs) ∧
    (∀ (r : JsonVal) (s : String),
      truthyOpt (analysisOf r) = true → wlsOf r = some (.jstr s) → s ≠ "" →
      womRendered r = true ∧ womParagraphs r = [.jstr s]) ∧
    (∀ s : String,
      (womParagraphs (mkWomResult (.jarr [.jstr s]))).map reactText = [s] ∧
      (s ≠ "" → (womParagraphs (mkWomResult (.jstr s))).map reactText = [s])) := by
  refine ⟨?_, ?_, ?_⟩
  · intro r xs hA hW
    have hr : womRendered r = true := by
      unfold womRendered
      rw [hA, hW]
      rfl
    refine ⟨hr, ?_⟩
    simp [womParagraphs, hr, hW]
  · intro r s hA hW hs
    have hr : womRendered r = true := by
      unfold womRendered
      rw [hA, hW]
      simp [truthyOpt, truthy, hs]
    refine ⟨hr, ?_⟩
    simp [womParagraphs, hr, hW]
  · intro s
    constructor
    · rfl
    · intro hs
      have hr : womRendered (mkWomResult (.jstr s)) = true := by
        unfold womRendered
        simp [mkWomResult, analysisOf, wlsOf, getField, truthyOpt, truthy, hs]
      unfold womParagraphs
      rw [hr]
      rfl

/-- Witness for C6 on the one-element sequence from the spec's own
dual-shape test. -/
theorem wom_dual_shape_witness :
    womRendered (mkWomResult (.jarr [.jstr "Great area"])) = true ∧
    womParagraphs (mkWomResult (.jarr [.jstr "Great area"])) = [.jstr "Great area"] :=
  wom_dual_shape.1 (mkWomResult (.jarr [.jstr "Great area"])) [.jstr "Great area"] rfl rfl

/-- Claim C7: with a present non-empty station sequence the block
renders exactly the first `min 5 length` entries in original order, and
a station's lines label is the comma-and-space join of its lines when
that sequence is present and non-empty, otherwise omitted. -/
theorem stations_truncation :
    ∀ (r : JsonVal) (xs : List JsonVal),
      truthyOpt (transportOf r) = true →
      stationsOf r = some (.jarr xs) → xs ≠ [] →
      stationsBlockRendered r = true ∧
      shownStations r = (xs.take 5).map renderStation ∧
      (shownStations r).length = min 5 xs.length ∧
      (∀ (st : JsonVal) (ls : List JsonVal),
        getField st "lines" = some (.jarr ls) → ls ≠ [] →
        (renderStation st).linesLabel =
          some (String.intercalate ", " (jsToStringList ls))) ∧
      (∀ st : JsonVal, getField st "lines" = none →
        (renderStation st).linesLabel = none) ∧
      (∀ st : JsonVal, getField st "lines" = some (.jarr []) →
        (renderStation st).linesLabel = none) := by
  intro r xs hT hS hne
  have hlen : (0 : Int) < xs.length := by
    have := List.length_pos.mpr hne
    exact_mod_cast this
  have hrend : stationsBlockRendered r = true := by
    simp [stationsBlockRendered, hT, hS, truthy, lengthPos, jsLength, hlen]
  have hshown : shownStations r = (xs.take 5).map renderStation := by
    simp [shownStations, hrend, hS]
  refine ⟨hrend, hshown, ?_, ?_, ?_, ?_⟩
  · rw [hshown]
    simp [List.length_map, List.length_take]
  · intro st ls hl hne2
    have hlen2 : (0 : Int) < ls.length := by
      have := List.length_pos.mpr hne2
      exact_mod_cast this
    simp [renderStation, hl, truthy, lengthPos, jsLength, hlen2, jsJoin]
  · intro st hl
    simp [renderStation, hl]
  · intro st hl
    simp [renderStation, hl, truthy, lengthPos, jsLength]

/-- Eight stations, numbered in order. -/
def c7Stations : List JsonVal :=
  (List.range 8).map (fun n =>
    .jobj [("name", .jstr (toString n)), ("transport_type", .jstr "Metro"),
           ("lines", .jarr [.jstr "1", .jstr "7"]), ("walk_time_minutes", .jnum 3)])

/-- A transport result carrying the eight stations. -/
def c7Example : JsonVal :=
  .jobj [("transport", .jobj [("nearby_stations", .jarr c7Stations)])]

/-- Witness for C7: of eight stations exactly five are rendered, in
original order. -/
theorem stations_truncation_witness :
    stationsBlockRendered c7Example = true ∧
    (shownStations c7Example).length = min 5 c7Stations.length ∧
    (shownStations c7Example).map (fun st => st.name) = ["0", "1", "2", "3", "4"] := by
  have h := stations_truncation c7Example c7Stations rfl rfl (by simp [c7Stations])
  refine ⟨h.1, h.2.2.1, ?_⟩
  decide

/-- A transport result with one landmark the icon mapping does not
know. -/
def c8UnknownExample : JsonVal :=
  .jobj [("transport", .jobj [("landmark_travel_times",
    .jarr [.jobj [("landmark", .jstr "Panthéon"), ("time", .jstr "12 min")]])])]

/-- A transport result with an empty landmark sequence. -/
def c8EmptyExample : JsonVal :=
  .jobj [("transport", .jobj [("landmark_travel_times", .jarr [])])]

/-- Counterexample to C8: an unrecognized landmark name does not omit
the icon — the img is emitted with the path `/landmarks/undefined.png`;
and the block renders for an empty sequence (an empty array is truthy),
not only for non-empty ones. -/
theorem landmark_icon_counterexample :
    landmarkEntries c8UnknownExample =
      [{ name := "Panthéon", iconSrc := "/landmarks/undefined.png",
         time := "12 min" }] ∧
    landmarksBlockRendered c8EmptyExample = true ∧
    landmarkEntries c8EmptyExample = [] := by
  exact ⟨by decide, by decide, by decide⟩

/-- Claim C8 (amended): the block renders iff `transport` and
`landmark_travel_times` are truthy (an empty sequence included); the
icon mapping knows exactly six landmark names; a known name renders its
icon asset, name text and time; an unrecognized name still renders its
name text and time but the icon img is emitted with the nonexistent
path `/landmarks/undefined.png` rather than omitted; no case errors. -/
theorem landmark_rendering :
    (∀ n : String, (iconMap n).isSome = true ↔
      n ∈ ["Sacré-Cœur", "Notre-Dame", "Eiffel Tower", "Arc de Triomphe",
           "Louvre", "Champs-Élysées"]) ∧
    (∀ (r : JsonVal) (xs : List JsonVal),
      truthyOpt (transportOf r) = true → landmarksOf r = some (.jarr xs) →
      landmarksBlockRendered r = true ∧ landmarkEntries r = xs.map renderLandmark) ∧
    (∀ (l : JsonVal) (s ic : String),
      getField l "landmark" = some (.jstr s) → iconMap s = some ic →
      renderLandmark l = { name := s, iconSrc := "/landmarks/" ++ ic ++ ".png",
                           time := reactTextOpt (getField l "time") }) ∧
    (∀ (l : JsonVal) (s : String),
      getField l "landmark" = some (.jstr s) → iconMap s = none →
      renderLandmark l = { name := s, iconSrc := "/landmarks/undefined.png",
                           time := reactTextOpt (getField l "time") }) := by
  refine ⟨?_, ?_, ?_, ?_⟩
  · intro n
    unfold iconMap
    split_ifs with h1 h2 h3 h4 h5 h6 <;> simp_all
  · intro r xs hT hL
    have hr : landmarksBlockRendered r = true := by
      unfold landmarksBlockRendered
      rw [hT, hL]
      rfl
    exact ⟨hr, by simp [landmarkEntries, hr, hL]⟩
  · intro l s ic hl hic
    simp [renderLandmark, hl, templateOpt, jsToString, hic, reactTextOpt, reactText]
  · intro l s hl hic
    simp [renderLandmark, hl, templateOpt, jsToString, hic, reactTextOpt, reactText]
    rfl

/-- Witness for C8 (amended) on a recognized landmark. -/
theorem landmark_rendering_witness :
    renderLandmark (JsonVal.jobj [("landmark", .jstr "Louvre"), ("time", .jstr "25 min")]) =
      { name := "Louvre", iconSrc := "/landmarks/louvre.png",
        time := reactTextOpt (getField
          (JsonVal.jobj [("landmark", .jstr "Louvre"), ("time", .jstr "25 min")]) "time") } :=
  landmark_rendering.2.2.1
    (JsonVal.jobj [("landmark", .jstr "Louvre"), ("time", .jstr "25 min")])
    "Louvre" "louvre" rfl rfl

/-- The Pending state submit produces from the reachable Failed
example. -/
def c9ResubmitState : SessionState :=
  { address := "10 Rue de Rivoli", loading := true, result := .jnull,
    error := .jnull, inFlight := 1 }

/-- Counterexample to C9: in the reachable Failed state the search form
is rendered, so a new submit is an externally triggered transition that
leaves Failed (it clears the error and starts a new request), and the
reset button does not even exist there (it is rendered only inside the
result view), so reset is not the only — nor in Failed an available —
externally triggered exit from Failed. -/
theorem failed_exit_counterexample :
    Reachable failedExample ∧
    failedExample.error ≠ .jnull ∧
    Step failedExample Ev.submit c9ResubmitState ∧
    c9ResubmitState.error = .jnull ∧
    c9ResubmitState.loading = true ∧
    ¬ Step failedExample Ev.reset (resetEffect failedExample) := by
  refine ⟨reach_failedExample, by simp [failedExample], ?_, rfl, rfl, ?_⟩
  · exact Step.submit failedExample rfl rfl
  · intro h
    cases h with
    | reset hbtn => exact absurd hbtn (by simp [failedExample, truthy])

/-- Claim C9 (amended): the reset button's handler unconditionally
discards the held result and error and empties the address; from any
reachable Succeeded state (truthy result) the only step the component
affords is reset, and it lands exactly on the Idle initial state.  (A
Failed state, by contrast, is exited by a new submit — see the
counterexample.) -/
theorem reset_behavior :
    (∀ s : SessionState,
      (resetEffect s).result = .jnull ∧ (resetEffect s).address = "" ∧
      (resetEffect s).error = .jnull) ∧
    (∀ s : SessionState, Reachable s → truthy s.result = true →
      ∀ (e : Ev) (s' : SessionState), Step s e s' →
        e = Ev.reset ∧ s' = initState) := by
  refine ⟨fun s => ⟨rfl, rfl, rfl⟩, ?_⟩
  intro s hs hres e s' hstep
  obtain ⟨h1, h2, h3⟩ := reachable_inv hs
  have hrn : s.result ≠ .jnull := truthy_ne_jnull hres
  have hl : s.loading = false := by
    cases hld : s.loading
    · rfl
    · exact absurd (h1 hld).2.1 hrn
  have hf : s.inFlight = 0 := h2 hl
  cases hstep with
  | setAddress a hform hload => rw [hres] at hform; exact absurd hform (by simp)
  | submit hform hload => rw [hres] at hform; exact absurd hform (by simp)
  | callSucceed data hfl => rw [hf] at hfl; omega
  | callFail responseData hfl => rw [hf] at hfl; omega
  | reset hbtn =>
      refine ⟨rfl, ?_⟩
      cases s with
      | mk a l rs er f =>
          simp only [resetEffect, initState]
          simp_all

/-- Witness for C9 (amended) at the concrete reachable Succeeded
state. -/
theorem reset_behavior_witness :
    Ev.reset = Ev.reset ∧ resetEffect succeededExample = initState :=
  reset_behavior.2 succeededExample reach_succeededExample rfl
    Ev.reset (resetEffect succeededExample) (Step.reset succeededExample rfl)
